import Mathlib

/-!
# Verification of the Video-Caption pipeline (`main.py`)

A shallow embedding of the pure core of `src/main.py`:

* `combine_words` — the subtitle segmentation engine (greedy single pass
  grouping word tokens into lines under character / duration / gap limits);
* `add_shadow_caption`, `create_caption_clip`, `create_caption` — the
  caption layer builder;
* `composite_clips` — the flattening performed in `main`
  (`[video_clip] + list(chain.from_iterable(layers))`).

Python floats are modelled as `ℚ`, Python strings as `String`
(`str.strip()` becomes `pyStrip`), and Python dictionaries as
structures whose fields follow the dictionary keys.  A Python call that
raises is modelled with `Except`: `create_caption_clip` calls
`add_shadow_caption` without the required `color` argument, so its
`shadow` branch raises `TypeError` before any layer is produced.
-/

/-- Python's `str.strip()`: remove leading and trailing whitespace.
Modelled on the character list of the string (ASCII whitespace, which is
all the claims exercise), so that it evaluates by kernel reduction. -/
def pyStrip (s : String) : String :=
  ⟨((s.data.dropWhile Char.isWhitespace).reverse.dropWhile
      Char.isWhitespace).reverse⟩

/-- An input token, the dict `{'start': float, 'end': float, 'word': str}`
produced by transcription (`set_raw_output`). `end` is a Lean keyword, so
the field is named `end_`. -/
structure WordData where
  start : ℚ
  end_ : ℚ
  word : String
deriving DecidableEq, Repr

/-- A word as stored in a subtitle line:
`{'text': word_text, 'start': word_start, 'end': word_end}`
(the text is carried under the key `text`, not `word`). -/
structure LineWord where
  text : String
  start : ℚ
  end_ : ℚ
deriving DecidableEq, Repr

/-- The per-word record appended to `current_line['words']`. -/
def toLineWord (w : WordData) : LineWord :=
  ⟨w.word, w.start, w.end_⟩

/-- An emitted subtitle line:
`{'start': ..., 'end': ..., 'line': text.strip(), 'words': [...]}`.
`start` and `end` are `Option ℚ` because the accumulator initialises them
to `None`; the emitted values are whatever the accumulator holds. -/
structure SubtitleLine where
  start : Option ℚ
  end_ : Option ℚ
  line : String
  words : List LineWord
deriving DecidableEq, Repr

/-- The accumulator `current_line` of `combine_words`. -/
structure CurrentLine where
  text : String
  start : Option ℚ
  end_ : Option ℚ
  duration : ℚ
  words : List LineWord
deriving DecidableEq, Repr

/-- The freshly reset accumulator
`{'text': "", 'start': None, 'end': None, 'duration': 0.0, 'words': []}`. -/
def emptyCurrent : CurrentLine :=
  ⟨"", none, none, 0, []⟩

/-- One appending step of `combine_words`: set `start` if unset, append the
word record, concatenate the text, update `end` and `duration`. -/
def appendWord (cur : CurrentLine) (w : WordData) : CurrentLine :=
  ⟨cur.text ++ w.word,
   match cur.start with
   | none => some w.start
   | some s => some s,
   some w.end_,
   cur.duration + (w.end_ - w.start),
   cur.words ++ [toLineWord w]⟩

/-- Emission of the accumulator as a subtitle line
(`'line': current_line['text'].strip()`). -/
def finishLine (cur : CurrentLine) : SubtitleLine :=
  ⟨cur.start, cur.end_, pyStrip cur.text, cur.words⟩

/-- The loop of `combine_words`.  `prev` is `data[i-1]` from the raw input
sequence (`none` for `i = 0`), threaded through unchanged by line breaks. -/
def combine_words_loop (max_chars : ℕ) (max_duration max_gap : ℚ) :
    List WordData → Option WordData → CurrentLine → List SubtitleLine
  | [], _, cur =>
    -- `if current_line['text']:` — final flush keyed on non-empty text
    if cur.text ≠ "" then [finishLine cur] else []
  | w :: rest, prev, cur =>
    let word_duration := w.end_ - w.start
    let gap : ℚ :=
      match prev with
      | none => 0
      | some p => w.start - p.end_
    let max_time_hit := cur.duration + word_duration > max_duration
    let max_chars_hit := cur.text.length + w.word.length ≥ max_chars
    let max_gap_hit := gap > max_gap
    if cur.text ≠ "" ∧ (max_time_hit ∨ max_chars_hit ∨ max_gap_hit) then
      finishLine cur ::
        combine_words_loop max_chars max_duration max_gap rest (some w)
          (appendWord emptyCurrent w)
    else
      combine_words_loop max_chars max_duration max_gap rest (some w)
        (appendWord cur w)

/-- `combine_words(data, max_chars, max_duration, max_gap)` from
`src/main.py`: combines words into subtitle lines based on character,
duration, and gap constraints. -/
def combine_words (data : List WordData) (max_chars : ℕ)
    (max_duration max_gap : ℚ) : List SubtitleLine :=
  combine_words_loop max_chars max_duration max_gap data none emptyCurrent

/-! ## Caption layer builder and compositor -/

/-- Horizontal part of a MoviePy position: the string `'center'` or a
pixel coordinate. -/
inductive HPos where
  | center : HPos
  | px (v : ℚ) : HPos
deriving DecidableEq, Repr

/-- A position tuple `(x, y)`. -/
def Pos : Type := HPos × ℚ

instance : DecidableEq Pos := instDecidableEqProd

/-- A configured `TextClip`: the text plus the style, timing, position and
blur parameters the script sets on it.  `start` and `duration` are the
line's `start` and `end - start` and so are `Option ℚ` like the line
fields they come from. -/
structure Clip where
  text : String
  font : String
  fontsize : ℚ
  color : String
  stroke_color : Option String
  stroke_width : ℚ
  start : Option ℚ
  duration : Option ℚ
  pos : Pos
  blur_sigma : Option ℚ
deriving DecidableEq

/-- `blur(clip, sigma)`: records the Gaussian blur applied to a clip. -/
def blur (clip : Clip) (sigma : ℚ) : Clip :=
  { clip with blur_sigma := some sigma }

/-- `add_shadow_caption` from `src/main.py`.  Note the source computes
`shadow_pos = ('center' if position[0] == 'center' else position[0] + offset[1],
position[1] + offset[1])`, adding `offset[1]` — the y component — to both
coordinates; this is embedded exactly.  The `color` parameter is declared
by the source but unused by its body. -/
def add_shadow_caption (text font : String) (font_size : ℚ)
    (start duration : Option ℚ) (position : Pos) (color : String)
    (sigma : ℚ) (offset : ℚ × ℚ) : Clip :=
  let shadow_clip : Clip :=
    ⟨text, font, font_size, "black", none, 1, start, duration, position, none⟩
  let shadow_pos : Pos :=
    (match position.1 with
     | HPos.center => HPos.center
     | HPos.px v => HPos.px (v + offset.2),
     position.2 + offset.2)
  blur { shadow_clip with pos := shadow_pos } sigma

/-- Subtraction lifted to the optional line times, for
`full_duration = caption_line_data['end'] - caption_line_data['start']`. -/
def optSub (a b : Option ℚ) : Option ℚ :=
  match a, b with
  | some x, some y => some (x - y)
  | _, _ => none

/-- The main `TextClip` built by `create_caption_clip` (the construction
of `caption_clip` followed by `set_position`). -/
def main_caption (caption_line_data : SubtitleLine) (font : String)
    (font_size : ℚ) (color : String) (stroke_color : Option String)
    (stroke_width : ℚ) (caption_position : Pos) : Clip :=
  ⟨caption_line_data.line, font, font_size, color, stroke_color,
   stroke_width, caption_line_data.start,
   optSub caption_line_data.end_ caption_line_data.start,
   caption_position, none⟩

/-- `create_caption_clip` from `src/main.py`.  When `shadow` is true the
source invokes `add_shadow_caption(text=..., font=..., font_size=...,
start=..., duration=..., position=..., sigma=5, offset=(3,3))` without the
required `color` parameter, so Python raises a `TypeError` before any
layer is produced; that raise is embedded as `Except.error`. -/
def create_caption_clip (caption_line_data : SubtitleLine)
    (video_size : ℚ × ℚ) (font : String) (font_size : ℚ) (color : String)
    (stroke_color : Option String) (stroke_width : ℚ)
    (caption_position : Option Pos) (shadow : Bool) :
    Except String (List Clip) :=
  let video_height := video_size.2
  let caption_position : Pos :=
    match caption_position with
    | none => (HPos.center, video_height * 3 / 4)
    | some p => p
  let caption_clip :=
    main_caption caption_line_data font font_size color stroke_color
      stroke_width caption_position
  if shadow then
    Except.error
      "TypeError: add_shadow_caption() missing 1 required positional argument: color"
  else
    Except.ok [caption_clip]

/-- Subtitle style configuration, the `'Subtitle Info'` dict with keys
`'Font'`, `'Font Size'`, `'Color'`, `'Stroke Color'`, `'Stroke Width'`,
`'Shadow'`. -/
structure SubtitleData where
  font : String
  font_size : ℚ
  color : String
  stroke_color : Option String
  stroke_width : ℚ
  shadow : Bool
deriving DecidableEq, Repr

/-- The bucket-distribution loop of `create_caption`: layer `i` of the
current caption is appended to bucket `i` of `final_caption_clips`,
creating the bucket when `i >= len(final_caption_clips)`. -/
def place {α : Type} : List (List α) → List α → List (List α)
  | [], [] => []
  | [], l :: ls => [l] :: place [] ls
  | b :: bs, [] => b :: bs
  | b :: bs, l :: ls => (b ++ [l]) :: place bs ls

/-- The caption loop of `create_caption`, threading the accumulated
`final_caption_clips` buckets; a `TypeError` raised by
`create_caption_clip` propagates. -/
def create_caption_go (frame_size : ℚ × ℚ) (subtitle_data : SubtitleData) :
    List SubtitleLine → List (List Clip) → Except String (List (List Clip))
  | [], final_caption_clips => Except.ok final_caption_clips
  | caption :: rest, final_caption_clips =>
    match create_caption_clip caption frame_size subtitle_data.font
        subtitle_data.font_size subtitle_data.color
        subtitle_data.stroke_color subtitle_data.stroke_width none
        subtitle_data.shadow with
    | Except.error e => Except.error e
    | Except.ok caption_clip =>
      create_caption_go frame_size subtitle_data rest
        (place final_caption_clips caption_clip)

/-- `create_caption` from `src/main.py`. -/
def create_caption (caption_data : List SubtitleLine)
    (frame_size : ℚ × ℚ) (subtitle_data : SubtitleData) :
    Except String (List (List Clip)) :=
  create_caption_go frame_size subtitle_data caption_data []

/-- The composition step of `main`:
`all_clips = list(chain.from_iterable(layers))` followed by
`CompositeVideoClip([video_clip] + all_clips)`, i.e. the base video first
and then the flattened buckets. -/
def composite_clips (video_clip : Clip) (layers : List (List Clip)) :
    List Clip :=
  video_clip :: layers.flatten

/-! ## Invariants of the segmentation accumulator -/

/-- `String.join` over a list extended on the right. -/
theorem string_join_concat (xs : List String) (s : String) :
    String.join (xs ++ [s]) = String.join xs ++ s := by
  simp [String.join, List.foldl_append]

/-- Invariant of the running accumulator `current_line`: its `start`,
`end` and `text` fields are determined by its `words` list. -/
def CurInv (cur : CurrentLine) : Prop :=
  cur.start = cur.words.head?.map LineWord.start ∧
  cur.end_ = cur.words.getLast?.map LineWord.end_ ∧
  cur.text = String.join (cur.words.map LineWord.text)

theorem curInv_empty : CurInv emptyCurrent :=
  ⟨rfl, rfl, rfl⟩

theorem curInv_append (cur : CurrentLine) (w : WordData) (h : CurInv cur) :
    CurInv (appendWord cur w) := by
  obtain ⟨h1, h2, h3⟩ := h
  refine ⟨?_, ?_, ?_⟩
  · cases hw : cur.words with
    | nil =>
      rw [hw] at h1
      simp only [appendWord, hw, h1]
      rfl
    | cons w0 ws =>
      rw [hw] at h1
      simp only [appendWord, hw, h1]
      rfl
  · simp only [appendWord, List.getLast?_concat, Option.map_some']
    rfl
  · simp only [appendWord, toLineWord, List.map_append, List.map_cons,
      List.map_nil, string_join_concat, h3]

/-- Invariant of every emitted subtitle line. -/
def LineInv (l : SubtitleLine) : Prop :=
  l.words ≠ [] ∧
  l.start = l.words.head?.map LineWord.start ∧
  l.end_ = l.words.getLast?.map LineWord.end_ ∧
  l.line = pyStrip (String.join (l.words.map LineWord.text))

theorem finishLine_lineInv (cur : CurrentLine) (hinv : CurInv cur)
    (hne : cur.text ≠ "") : LineInv (finishLine cur) := by
  obtain ⟨h1, h2, h3⟩ := hinv
  refine ⟨?_, h1, h2, by simp only [finishLine, h3]⟩
  intro hnil
  apply hne
  have hw : cur.words = [] := hnil
  rw [h3, hw]
  rfl

theorem combine_words_loop_lineInv (max_chars : ℕ) (max_duration max_gap : ℚ) :
    ∀ (data : List WordData) (prev : Option WordData) (cur : CurrentLine),
      CurInv cur →
      ∀ l ∈ combine_words_loop max_chars max_duration max_gap data prev cur,
        LineInv l := by
  intro data
  induction data with
  | nil =>
    intro prev cur hinv l hl
    simp only [combine_words_loop] at hl
    split at hl
    · rcases List.mem_singleton.mp hl with rfl
      exact finishLine_lineInv cur hinv (by assumption)
    · exact absurd hl (List.not_mem_nil l)
  | cons w rest ih =>
    intro prev cur hinv l hl
    simp only [combine_words_loop] at hl
    split at hl
    · rcases List.mem_cons.mp hl with rfl | hl'
      · next hcond =>
        exact finishLine_lineInv cur hinv hcond.1
      · exact ih (some w) (appendWord emptyCurrent w)
          (curInv_append emptyCurrent w curInv_empty) l hl'
    · exact ih (some w) (appendWord cur w) (curInv_append cur w hinv) l hl

/-- Every line produced by `combine_words` satisfies the accumulator
invariant. -/
theorem combine_words_lineInv (data : List WordData) (max_chars : ℕ)
    (max_duration max_gap : ℚ) :
    ∀ l ∈ combine_words data max_chars max_duration max_gap, LineInv l :=
  combine_words_loop_lineInv max_chars max_duration max_gap data none
    emptyCurrent curInv_empty

/-- Appending a non-empty string on the right keeps a string non-empty. -/
theorem string_append_ne_empty {s t : String} (ht : t ≠ "") : s ++ t ≠ "" := by
  intro h
  apply ht
  have hd := congrArg String.data h
  rw [String.data_append] at hd
  rcases List.append_eq_nil.mp hd with ⟨-, h2⟩
  cases t
  simp_all

/-- The `words` lists of the lines produced by the loop, concatenated,
are the accumulator's words followed by the remaining raw tokens —
provided no remaining token has empty text (otherwise the final
`if current_line['text']` flush can drop tokens). -/
theorem combine_words_loop_join_words (max_chars : ℕ)
    (max_duration max_gap : ℚ) :
    ∀ (data : List WordData) (prev : Option WordData) (cur : CurrentLine),
      (∀ w ∈ data, w.word ≠ "") →
      (cur.text = "" → cur.words = []) →
      (List.map SubtitleLine.words
          (combine_words_loop max_chars max_duration max_gap data prev cur)).flatten
        = cur.words ++ List.map toLineWord data := by
  intro data
  induction data with
  | nil =>
    intro prev cur _ hflush
    simp only [combine_words_loop]
    split
    · simp [finishLine]
    · next hc =>
      have : cur.text = "" := not_not.mp (by simpa using hc)
      simp [hflush this]
  | cons w rest ih =>
    intro prev cur hne hflush
    have hw : w.word ≠ "" := hne w (List.mem_cons_self w rest)
    have hne' : ∀ v ∈ rest, v.word ≠ "" :=
      fun v hv => hne v (List.mem_cons_of_mem w hv)
    simp only [combine_words_loop]
    split
    · rw [List.map_cons, List.flatten_cons,
        ih (some w) (appendWord emptyCurrent w) hne'
          (fun h => absurd h (string_append_ne_empty hw))]
      simp [finishLine, appendWord, emptyCurrent, toLineWord]
    · rw [ih (some w) (appendWord cur w) hne'
        (fun h => absurd h (string_append_ne_empty hw))]
      simp [appendWord, toLineWord]

/-- For inputs whose tokens all have non-empty text, the emitted lines'
`words` lists concatenate, in order, to the input token sequence (with
each token's text carried under the key `text`). -/
theorem combine_words_join_words (data : List WordData) (max_chars : ℕ)
    (max_duration max_gap : ℚ) (h : ∀ w ∈ data, w.word ≠ "") :
    (List.map SubtitleLine.words
        (combine_words data max_chars max_duration max_gap)).flatten
      = List.map toLineWord data := by
  simpa using
    combine_words_loop_join_words max_chars max_duration max_gap data none
      emptyCurrent h (fun _ => rfl)

/-! ## Layer-builder facts -/

/-- The main caption clip as `create_caption` builds it: default position
(horizontally centered, at 3/4 of the frame height). -/
def mainClipOf (frame_size : ℚ × ℚ) (subtitle_data : SubtitleData)
    (l : SubtitleLine) : Clip :=
  main_caption l subtitle_data.font subtitle_data.font_size
    subtitle_data.color subtitle_data.stroke_color subtitle_data.stroke_width
    (HPos.center, frame_size.2 * 3 / 4)

theorem create_caption_go_no_shadow (frame_size : ℚ × ℚ)
    (subtitle_data : SubtitleData) (hsh : subtitle_data.shadow = false) :
    ∀ (lines : List SubtitleLine) (b : List Clip),
      create_caption_go frame_size subtitle_data lines [b]
        = Except.ok [b ++ lines.map (mainClipOf frame_size subtitle_data)] := by
  intro lines
  induction lines with
  | nil => intro b; simp [create_caption_go]
  | cons l rest ih =>
    intro b
    simp only [create_caption_go, create_caption_clip, hsh, Bool.false_eq_true,
      if_false, place, List.map_cons, mainClipOf]
    rw [ih]
    simp [place, mainClipOf]

/-- With the shadow disabled, the composited output is the base video
followed by the single bucket of main clips, in original line order. -/
theorem composite_no_shadow (base : Clip) (frame_size : ℚ × ℚ)
    (subtitle_data : SubtitleData) (hsh : subtitle_data.shadow = false)
    (lines : List SubtitleLine) :
    Except.map (composite_clips base)
        (create_caption lines frame_size subtitle_data)
      = Except.ok
          (base :: lines.map (mainClipOf frame_size subtitle_data)) := by
  cases lines with
  | nil => simp [create_caption, create_caption_go, composite_clips, Except.map]
  | cons l rest =>
    simp only [create_caption, create_caption_go, create_caption_clip, hsh,
      Bool.false_eq_true, if_false, place]
    rw [create_caption_go_no_shadow frame_size subtitle_data hsh rest]
    simp [composite_clips, Except.map, mainClipOf]

/-! ## Claims -/

/-- C1: the character-count break predicate is non-strict (`>=`) while the
duration predicate is strict (`>`): tokens `["ab","cd"]` with
`maxChars = 4` break at exact equality into two lines `"ab"`, `"cd"`,
whereas the same tokens whose summed duration exactly equals
`maxDuration = 2` do not break and stay one line `"abcd"`. -/
theorem combine_words_char_threshold_nonstrict :
    combine_words [⟨0, 1, "ab"⟩, ⟨1, 2, "cd"⟩] 4 1000 1000 =
      [⟨some 0, some 1, "ab", [⟨"ab", 0, 1⟩]⟩,
       ⟨some 1, some 2, "cd", [⟨"cd", 1, 2⟩]⟩] ∧
    combine_words [⟨0, 1, "ab"⟩, ⟨1, 2, "cd"⟩] 100 2 1000 =
      [⟨some 0, some 2, "abcd", [⟨"ab", 0, 1⟩, ⟨"cd", 1, 2⟩]⟩] := by
  constructor
  · with_unfolding_all decide
  · with_unfolding_all decide

/-- C2 counterexample: the emitted `line` fields are stripped
(`.strip()`), so for the single token `" a"` the concatenation of lines is
`"a"`, not the token concatenation `" a"`. -/
theorem combine_words_reconstruction_counterexample :
    String.join (List.map SubtitleLine.line
        (combine_words [⟨0, 1, " a"⟩] 30 (5/2) (3/2)))
      ≠ String.join (List.map WordData.word [⟨0, 1, " a"⟩]) := by
  with_unfolding_all decide

/-- C2 (amended): every emitted line's `line` field is the concatenation
of its own words' texts trimmed of surrounding whitespace — so
reconstruction is exact only up to the per-line `.strip()`. -/
theorem combine_words_line_is_stripped_concat (data : List WordData)
    (max_chars : ℕ) (max_duration max_gap : ℚ) :
    ∀ l ∈ combine_words data max_chars max_duration max_gap,
      l.line = pyStrip (String.join (l.words.map LineWord.text)) :=
  fun l hl =>
    (combine_words_lineInv data max_chars max_duration max_gap l hl).2.2.2

/-- C2 witness: the line built from the token `" hi "` has
`line = "hi"`, the stripped concatenation of its words' texts. -/
theorem combine_words_line_is_stripped_concat_witness :
    (⟨some 0, some 1, "hi", [⟨" hi ", 0, 1⟩]⟩ : SubtitleLine)
        ∈ combine_words [⟨0, 1, " hi "⟩] 30 3 2 ∧
    (⟨some 0, some 1, "hi", [⟨" hi ", 0, 1⟩]⟩ : SubtitleLine).line
      = pyStrip (String.join
          ((⟨some 0, some 1, "hi", [⟨" hi ", 0, 1⟩]⟩ : SubtitleLine).words.map
            LineWord.text)) :=
  ⟨by with_unfolding_all decide,
   combine_words_line_is_stripped_concat [⟨0, 1, " hi "⟩] 30 3 2 _
     (by with_unfolding_all decide)⟩

/-- C3: with `Shadow = true` the layer builder raises
`TypeError: add_shadow_caption() missing 1 required positional argument:
color` on the first line, so the claimed
`[base, shadow(line1), shadow(line2), main(line1), main(line2)]` output is
never produced; with the shadow disabled the compositor's flattened order
is the base video followed by every line's main clip in original line
order. -/
theorem create_caption_shadow_type_error :
    create_caption
        [⟨some 0, some 1, "hi", [⟨"hi", 0, 1⟩]⟩,
         ⟨some 1, some 2, "yo", [⟨"yo", 1, 2⟩]⟩]
        (640, 480) ⟨"Arial", 120, "white", none, 1, true⟩
      = Except.error
          "TypeError: add_shadow_caption() missing 1 required positional argument: color" ∧
    ∀ (lines : List SubtitleLine) (base : Clip) (frame_size : ℚ × ℚ)
      (font : String) (font_size : ℚ) (color : String)
      (stroke_color : Option String) (stroke_width : ℚ),
      Except.map (composite_clips base)
          (create_caption lines frame_size
            ⟨font, font_size, color, stroke_color, stroke_width, false⟩)
        = Except.ok (base :: lines.map (mainClipOf frame_size
            ⟨font, font_size, color, stroke_color, stroke_width, false⟩)) := by
  refine ⟨rfl, ?_⟩
  intro lines base frame_size font font_size color stroke_color stroke_width
  exact composite_no_shadow base frame_size _ rfl lines

/-- C4: the gap is taken from the raw input sequence
(`tokens[i].start - tokens[i-1].end`, `0` at `i = 0`): with
`maxGap = 1` the tokens `a:[0,1]`, `b:[1,1.2]`, `c:[3,3.1]` split at the
`1.8`-second gap between `b` and `c` into lines `"ab"` and `"c"`. -/
theorem combine_words_gap_from_raw_sequence :
    combine_words [⟨0, 1, "a"⟩, ⟨1, 6/5, "b"⟩, ⟨3, 31/10, "c"⟩] 100 100 1 =
      [⟨some 0, some (6/5), "ab", [⟨"a", 0, 1⟩, ⟨"b", 1, 6/5⟩]⟩,
       ⟨some 3, some (31/10), "c", [⟨"c", 3, 31/10⟩]⟩] := by
  with_unfolding_all decide

/-- C5 counterexample: the final flush tests the accumulator's *text*,
not its words list — two tokens with empty text leave the accumulator
holding two words, yet nothing is emitted. -/
theorem combine_words_drops_empty_text_tokens :
    combine_words [⟨0, 1, ""⟩, ⟨1, 2, ""⟩] 30 (5/2) (3/2) = [] ∧
    ([⟨0, 1, ""⟩, ⟨1, 2, ""⟩] : List WordData) ≠ [] := by
  constructor
  · with_unfolding_all decide
  · with_unfolding_all decide

/-- C5 (amended): the final flush emits whenever the accumulator's text is
non-empty; hence when every token's text is non-empty, every input token
appears in some emitted line. -/
theorem combine_words_every_token_in_some_line (data : List WordData)
    (max_chars : ℕ) (max_duration max_gap : ℚ)
    (h : ∀ w ∈ data, w.word ≠ "") :
    ∀ w ∈ data,
      ∃ l ∈ combine_words data max_chars max_duration max_gap,
        toLineWord w ∈ l.words := by
  intro w hw
  have hj := combine_words_join_words data max_chars max_duration max_gap h
  have hmem : toLineWord w ∈
      (List.map SubtitleLine.words
        (combine_words data max_chars max_duration max_gap)).flatten := by
    rw [hj]
    exact List.mem_map_of_mem toLineWord hw
  rcases List.mem_flatten.mp hmem with ⟨ws, hws, hin⟩
  rcases List.mem_map.mp hws with ⟨l, hl, rfl⟩
  exact ⟨l, hl, hin⟩

/-- C5 witness: the token `"hey"` lands in some emitted line. -/
theorem combine_words_every_token_in_some_line_witness :
    (∀ w ∈ ([⟨0, 1, "hey"⟩] : List WordData), w.word ≠ "") ∧
    (⟨0, 1, "hey"⟩ : WordData) ∈ ([⟨0, 1, "hey"⟩] : List WordData) ∧
    ∃ l ∈ combine_words [⟨0, 1, "hey"⟩] 30 3 2,
      toLineWord ⟨0, 1, "hey"⟩ ∈ l.words :=
  ⟨by with_unfolding_all decide, by with_unfolding_all decide,
   combine_words_every_token_in_some_line [⟨0, 1, "hey"⟩] 30 3 2
     (by with_unfolding_all decide) ⟨0, 1, "hey"⟩
     (by with_unfolding_all decide)⟩

/-- C6: no shadow layer is ever built — `create_caption_clip` invokes
`add_shadow_caption` without its required `color` parameter, raising
`TypeError`; `add_shadow_caption` itself, called with the configured
offset `(3,3)`, places the shadow at the main position plus `(3,3)`
component-wise, keeping `center` pinned (the body adds `offset[1]` to
both coordinates, which coincides with the component-wise offset because
both components are `3`). -/
theorem add_shadow_caption_type_error_and_offset :
    create_caption_clip ⟨some 0, some 1, "hi", [⟨"hi", 0, 1⟩]⟩ (640, 480)
        "Arial" 120 "white" none 1 none true
      = Except.error
          "TypeError: add_shadow_caption() missing 1 required positional argument: color" ∧
    (∀ (text font color : String) (font_size : ℚ)
        (start duration : Option ℚ) (x y sigma : ℚ),
      (add_shadow_caption text font font_size start duration
          (HPos.px x, y) color sigma (3, 3)).pos = (HPos.px (x + 3), y + 3)) ∧
    (∀ (text font color : String) (font_size : ℚ)
        (start duration : Option ℚ) (y sigma : ℚ),
      (add_shadow_caption text font font_size start duration
          (HPos.center, y) color sigma (3, 3)).pos = (HPos.center, y + 3)) :=
  ⟨rfl,
   fun _ _ _ _ _ _ _ _ _ => rfl,
   fun _ _ _ _ _ _ _ _ => rfl⟩

/-- C7 counterexample: a single token with empty text — even an oversized
one (duration `3 > maxDuration 1`) — yields *no* line at all, because the
final flush tests the text, which is empty. -/
theorem combine_words_single_empty_token_dropped :
    combine_words [⟨2, 5, ""⟩] 30 1 (3/2) = [] := by
  with_unfolding_all decide

/-- C7 (amended): a single token whose text is non-empty always produces
exactly one line holding just that token, whatever the constraints — the
first token never triggers a break and is never split. -/
theorem combine_words_single_token_one_line (w : WordData) (max_chars : ℕ)
    (max_duration max_gap : ℚ) (h : w.word ≠ "") :
    combine_words [w] max_chars max_duration max_gap =
      [⟨some w.start, some w.end_, pyStrip w.word, [toLineWord w]⟩] := by
  show combine_words_loop max_chars max_duration max_gap [w] none emptyCurrent
    = _
  simp only [combine_words_loop]
  rw [if_neg (fun hc => hc.1 rfl),
    if_pos (show (appendWord emptyCurrent w).text ≠ "" from
      string_append_ne_empty h)]
  simp [finishLine, appendWord, emptyCurrent, toLineWord, String.empty_append]

/-- C7 witness: the token `"hello"` with duration `10 > maxDuration 2`
and length `5 >= maxChars 3` still yields exactly one line. -/
theorem combine_words_single_token_one_line_witness :
    ("hello" : String) ≠ "" ∧
    combine_words [⟨0, 10, "hello"⟩] 3 2 1 =
      [⟨some 0, some 10, "hello", [⟨"hello", 0, 10⟩]⟩] :=
  ⟨by with_unfolding_all decide,
   by
     rw [combine_words_single_token_one_line ⟨0, 10, "hello"⟩ 3 2 1
       (by with_unfolding_all decide)]
     with_unfolding_all decide⟩

/-- C8: every emitted line's `start` is its first word's `start` and its
`end` is its last word's `end`, for every input and configuration. -/
theorem combine_words_line_start_end (data : List WordData) (max_chars : ℕ)
    (max_duration max_gap : ℚ) :
    ∀ l ∈ combine_words data max_chars max_duration max_gap,
      ∃ w0 wl, l.words.head? = some w0 ∧ l.words.getLast? = some wl ∧
        l.start = some w0.start ∧ l.end_ = some wl.end_ := by
  intro l hl
  obtain ⟨hne, h1, h2, -⟩ :=
    combine_words_lineInv data max_chars max_duration max_gap l hl
  cases hw : l.words with
  | nil => exact absurd hw hne
  | cons w0 ws =>
    have hsome : (w0 :: ws).getLast?.isSome :=
      List.getLast?_isSome.mpr (List.cons_ne_nil w0 ws)
    obtain ⟨wl, hwl⟩ := Option.isSome_iff_exists.mp hsome
    rw [hw] at h1 h2
    rw [hwl] at h2
    refine ⟨w0, wl, by simp, hwl, ?_, h2⟩
    simpa using h1

/-- C8 witness: the single line built from `"ok"`, `"go"` starts at the
first word's start `0` and ends at the last word's end `3`. -/
theorem combine_words_line_start_end_witness :
    (⟨some 0, some 3, "okgo", [⟨"ok", 0, 2⟩, ⟨"go", 2, 3⟩]⟩ : SubtitleLine)
        ∈ combine_words [⟨0, 2, "ok"⟩, ⟨2, 3, "go"⟩] 100 100 100 ∧
    ∃ w0 wl,
      (⟨some 0, some 3, "okgo",
        [⟨"ok", 0, 2⟩, ⟨"go", 2, 3⟩]⟩ : SubtitleLine).words.head? = some w0 ∧
      (⟨some 0, some 3, "okgo",
        [⟨"ok", 0, 2⟩, ⟨"go", 2, 3⟩]⟩ : SubtitleLine).words.getLast? = some wl ∧
      (⟨some 0, some 3, "okgo",
        [⟨"ok", 0, 2⟩, ⟨"go", 2, 3⟩]⟩ : SubtitleLine).start = some w0.start ∧
      (⟨some 0, some 3, "okgo",
        [⟨"ok", 0, 2⟩, ⟨"go", 2, 3⟩]⟩ : SubtitleLine).end_ = some wl.end_ :=
  ⟨by with_unfolding_all decide,
   combine_words_line_start_end [⟨0, 2, "ok"⟩, ⟨2, 3, "go"⟩] 100 100 100 _
     (by with_unfolding_all decide)⟩

/-- C9: an empty token sequence is never an error — it yields an empty
line list, an empty layer set, and a composite equal to the base video
alone. -/
theorem empty_input_yields_base_video_alone (max_chars : ℕ)
    (max_duration max_gap : ℚ) (frame_size : ℚ × ℚ)
    (subtitle_data : SubtitleData) (base : Clip) :
    combine_words [] max_chars max_duration max_gap = [] ∧
    create_caption (combine_words [] max_chars max_duration max_gap)
        frame_size subtitle_data = Except.ok [] ∧
    Except.map (composite_clips base)
        (create_caption (combine_words [] max_chars max_duration max_gap)
          frame_size subtitle_data)
      = Except.ok [base] :=
  ⟨rfl, rfl, rfl⟩

/-- C10: when every token's text is non-empty, the `words` lists of the
emitted lines concatenate, in order, to exactly the input token sequence
(texts carried under the key `text`): the lines are an ordered partition
of the input into contiguous runs. -/
theorem combine_words_words_partition (data : List WordData) (max_chars : ℕ)
    (max_duration max_gap : ℚ) (h : ∀ w ∈ data, w.word ≠ "") :
    (List.map SubtitleLine.words
        (combine_words data max_chars max_duration max_gap)).flatten
      = List.map toLineWord data :=
  combine_words_join_words data max_chars max_duration max_gap h

/-- C10 witness: with `maxChars = 1` the tokens `"a"`, `"bb"` split into
two lines whose words concatenate back to the input. -/
theorem combine_words_words_partition_witness :
    (∀ w ∈ ([⟨0, 1, "a"⟩, ⟨1, 2, "bb"⟩] : List WordData), w.word ≠ "") ∧
    (List.map SubtitleLine.words
        (combine_words [⟨0, 1, "a"⟩, ⟨1, 2, "bb"⟩] 1 100 100)).flatten
      = List.map toLineWord [⟨0, 1, "a"⟩, ⟨1, 2, "bb"⟩] :=
  ⟨by with_unfolding_all decide,
   combine_words_words_partition [⟨0, 1, "a"⟩, ⟨1, 2, "bb"⟩] 1 100 100
     (by with_unfolding_all decide)⟩
